import Mathlib

/-!
Shallow embedding of the vstats-cli orchestration layer
(`internal/commands/{auth,ssh,client}.go` plus the web/server command files
and the config file), restricted to the logic the verified claims are about.

The remote cloud backend and the SSH subprocess are modelled as oracles: a
`Gateway` record of response functions (one per typed API operation the
orchestrator may issue) and an `Except String Unit` outcome for the single
subprocess invocation. Each command workflow is translated statement by
statement from its Go source into a pure function that returns its
`Except`-style result paired with the ordered trace of external calls it
issued, so that call-count and call-order assertions are provable.
Machine integers (`int` in Go) are modelled as `Int`.
-/

namespace VStats

/-- `Server`, from `client.go` (fields not consulted by the modelled
workflows — optional hostname/IP/OS/metrics and timestamps — are omitted;
the orchestration logic only reads `ID`, `Name` and `AgentKey`). -/
structure Server where
  id : String
  name : String
  agentKey : String
  status : String
  deriving Repr, DecidableEq

/-- `WebInstance`, from `web.go` (timestamps omitted: never read or written
by the deployment logic). -/
structure WebInstance where
  id : String
  name : String
  host : String
  port : Int
  url : String
  status : String
  version : String
  cloudMode : Bool
  sslEnabled : Bool
  deriving Repr, DecidableEq

/-- `UserPlan`, from `web.go`. -/
structure UserPlan where
  plan : String
  maxWebApps : Int
  currentCount : Int
  isPro : Bool
  deriving Repr, DecidableEq

/-- `Config`, from the config file (`cloud_url`, `token`, `username`,
`expires_at`). -/
structure Config where
  cloudURL : String
  token : String
  username : String
  expiresAt : Int
  deriving Repr, DecidableEq

/-- `VerifyResponse`, from `client.go`: the decoded body of
`GET /api/auth/verify`. -/
structure VerifyResponse where
  valid : Bool
  userID : String
  username : String
  plan : String
  deriving Repr, DecidableEq

/-- One external call issued by a workflow: a typed API operation against
the gateway, the SSH subprocess invocation, or a config-file write. -/
inductive Call where
  | getServer (id : String)
  | listServers
  | createServer (name : String)
  | deleteServer (id : String)
  | getUserPlan
  | listWebInstances
  | registerWebInstance (w : WebInstance)
  | removeWebInstance (id : String)
  | updateWebInstance (w : WebInstance)
  | sshExec (args : List String) (cmd : String)
  | verifyToken
  | saveConfig
  deriving Repr, DecidableEq

/-- The remote backend as an oracle: for each typed operation, the response
the fake gateway would return. The orchestrator is deterministic given
these responses. -/
structure Gateway where
  getServerResp : String → Except String Server
  listServersResp : Except String (List Server)
  createServerResp : String → Except String Server
  getUserPlanResp : Except String UserPlan
  listWebInstancesResp : Except String (List WebInstance)
  registerWebInstanceResp : WebInstance → Except String WebInstance
  removeWebInstanceResp : String → Except String Unit
  updateWebInstanceResp : WebInstance → Except String Unit

/-- `IsLoggedIn` from the config file: `cfg.Token != ""`. -/
def IsLoggedIn (c : Config) : Bool :=
  c.token != ""

/-- The error message `requireLogin` (auth.go) returns when not logged in. -/
def notLoggedInMsg : String :=
  "not logged in. Run 'vstats login' first"

/-- `requireLogin` from auth.go. -/
def requireLogin (c : Config) : Except String Unit :=
  if IsLoggedIn c then .ok () else .error notLoggedInMsg

/-- `findServerByNameOrID` from the server command file: try a direct
fetch-by-ID; on failure list all servers and return the first whose name
equals the reference; otherwise fail with `server not found: <ref>`.
Returns the result paired with the trace of gateway calls issued. -/
def findServerByNameOrID (gw : Gateway) (nameOrID : String) :
    Except String Server × List Call :=
  match gw.getServerResp nameOrID with
  | .ok server => (.ok server, [.getServer nameOrID])
  | .error _ =>
    match gw.listServersResp with
    | .error _ =>
      (.error ("server not found: " ++ nameOrID), [.getServer nameOrID, .listServers])
    | .ok servers =>
      match servers.find? (fun s => s.name == nameOrID) with
      | some s => (.ok s, [.getServer nameOrID, .listServers])
      | none =>
        (.error ("server not found: " ++ nameOrID), [.getServer nameOrID, .listServers])

/-- `formatLimit` from web.go. -/
def formatLimit (limit : Int) : String :=
  if limit < 0 then "unlimited" else toString limit

/-- `buildWebURL` from web.go. -/
def buildWebURL (host : String) (port : Int) (domain : String) (ssl : Bool) : String :=
  let scheme := if ssl then "https" else "http"
  if domain != "" then
    if ssl ∧ port = 443 then scheme ++ "://" ++ domain
    else if ¬ssl ∧ port = 80 then scheme ++ "://" ++ domain
    else scheme ++ "://" ++ domain ++ ":" ++ toString port
  else
    if port = 80 ∨ port = 443 then scheme ++ "://" ++ host
    else scheme ++ "://" ++ host ++ ":" ++ toString port

/-- Split a character list at the first `@`, if any: the semantics of Go's
`strings.SplitN(s, "@", 2)` (later `@`s stay in the second part). -/
def splitFirstAt : List Char → Option (List Char × List Char)
  | [] => none
  | c :: cs =>
    if c = '@' then some ([], cs)
    else
      match splitFirstAt cs with
      | none => none
      | some (p, q) => some (c :: p, q)

/-- `parseSSHHost` from ssh.go: split `user@host` at the first `@`; without
an `@` the user is empty and the whole argument is the host. -/
def parseSSHHost (hostArg : String) : String × String :=
  match splitFirstAt hostArg.data with
  | none => ("", hostArg)
  | some (p, q) => (⟨p⟩, ⟨q⟩)

/-- The user resolution in both ssh workflows: `--user` flag overrides the
parsed user; empty defaults to `root`. -/
def resolveUser (parsedUser userFlag : String) : String :=
  let u := if userFlag != "" then userFlag else parsedUser
  if u = "" then "root" else u

/-- `buildSSHArgs` from ssh.go. -/
def buildSSHArgs (sshPort : Int) (sshKey : String) (user host : String) : List String :=
  (if sshPort ≠ 0 then ["-p", toString sshPort] else [])
    ++ (if sshKey != "" then ["-i", sshKey] else [])
    ++ [if user != "" then user ++ "@" ++ host else host]

/-- The cloud URL fallback both ssh workflows apply before building the
remote install command. -/
def effectiveCloudURL (c : Config) : String :=
  if c.cloudURL = "" then "https://api.vstats.zsoft.cc" else c.cloudURL

/-- The remote install command string of the agent workflow (ssh.go). -/
def agentInstallCmd (cloudURL token serverName : String) : String :=
  "curl -fsSL https://vstats.zsoft.cc/agent.sh | sudo bash -s -- --server \""
    ++ cloudURL ++ "\" --token \"" ++ token ++ "\" --name \"" ++ serverName ++ "\""

/-- The remote install command string of the web workflow (ssh.go); the
SSL/domain flags are appended only when SSL is enabled and a domain is set. -/
def webInstallCmd (cloudURL token : String) (port : Int) (ssl : Bool) (domain : String) : String :=
  let base :=
    "curl -fsSL https://vstats.zsoft.cc/install.sh | sudo bash -s -- --cloud-mode --cloud-url \""
      ++ cloudURL ++ "\" --cloud-token \"" ++ token ++ "\" --port " ++ toString port
  if ssl ∧ domain != "" then base ++ " --ssl --domain \"" ++ domain ++ "\"" else base

/-- `ssh agent <host>` (ssh.go, `sshAgentCmd.RunE`): require login, parse
host/user, resolve an existing server (`--server`) or create a new one
named after the host (or `--name`), then run the installer over SSH.
`sshResult` is the outcome of the subprocess step (`runSSHCommand`).
On success the pair `(server ID, agent key)` is reported. -/
def sshAgentCmd (c : Config) (gw : Gateway) (sshResult : Except String Unit)
    (hostArg nameFlag serverFlag userFlag : String) (portFlag : Int) (keyFlag : String) :
    Except String (String × String) × List Call :=
  if IsLoggedIn c then
    let user0 := (parseSSHHost hostArg).1
    let host := (parseSSHHost hostArg).2
    let user := resolveUser user0 userFlag
    let serverName := if nameFlag = "" then host else nameFlag
    let acquire : Except String (String × String) × List Call :=
      if serverFlag != "" then
        match findServerByNameOrID gw serverFlag with
        | (.ok s, t) => (.ok (s.id, s.agentKey), t)
        | (.error e, t) => (.error e, t)
      else
        match gw.createServerResp serverName with
        | .ok s => (.ok (s.id, s.agentKey), [.createServer serverName])
        | .error e => (.error ("failed to create server: " ++ e), [.createServer serverName])
    match acquire with
    | (.error e, t) => (.error e, t)
    | (.ok ids, t) =>
      let args := buildSSHArgs portFlag keyFlag user host
      let cmd := agentInstallCmd (effectiveCloudURL c) c.token serverName
      match sshResult with
      | .error e => (.error ("deployment failed: " ++ e), t ++ [.sshExec args cmd])
      | .ok _ => (.ok ids, t ++ [.sshExec args cmd])
  else (.error notLoggedInMsg, [])

/-- The `WebInstance` record the web workflow registers, as computed from
the command arguments (ssh.go: name defaults to `web-<host>`, port to 3001,
URL from `buildWebURL`; all other fields are zero-valued in the request). -/
def webReqOf (hostArg nameFlag : String) (webPortFlag : Int) (domain : String) (ssl : Bool) :
    WebInstance :=
  let host := (parseSSHHost hostArg).2
  let webName := if nameFlag = "" then "web-" ++ host else nameFlag
  let webPort := if webPortFlag = 0 then 3001 else webPortFlag
  { id := "", name := webName, host := host, port := webPort
    url := buildWebURL host webPort domain ssl
    status := "", version := "", cloudMode := false, sslEnabled := false }

/-- `ssh web <host>` (ssh.go, `sshWebCmd.RunE`): require login, pre-flight
quota check against the user plan, register the web instance, run the
installer over SSH; on subprocess failure remove the just-registered
instance (result ignored) and surface the deployment error; on success set
its status to online and push a best-effort update. -/
def sshWebCmd (c : Config) (gw : Gateway) (sshResult : Except String Unit)
    (hostArg nameFlag : String) (webPortFlag : Int) (domainFlag : String) (sslFlag : Bool)
    (userFlag : String) (portFlag : Int) (keyFlag : String) :
    Except String WebInstance × List Call :=
  if IsLoggedIn c then
    match gw.getUserPlanResp with
    | .error e => (.error ("failed to check plan: " ++ e), [.getUserPlan])
    | .ok plan =>
      if plan.isPro = false ∧ plan.currentCount ≥ plan.maxWebApps then
        (.error "web instance limit reached", [.getUserPlan])
      else
        let user0 := (parseSSHHost hostArg).1
        let host := (parseSSHHost hostArg).2
        let user := resolveUser user0 userFlag
        let req := webReqOf hostArg nameFlag webPortFlag domainFlag sslFlag
        match gw.registerWebInstanceResp req with
        | .error e =>
          (.error ("failed to register web instance: " ++ e),
            [.getUserPlan, .registerWebInstance req])
        | .ok inst =>
          let args := buildSSHArgs portFlag keyFlag user host
          let cmd := webInstallCmd (effectiveCloudURL c) c.token req.port sslFlag domainFlag
          match sshResult with
          | .error e =>
            (.error ("deployment failed: " ++ e),
              [.getUserPlan, .registerWebInstance req, .sshExec args cmd,
                .removeWebInstance inst.id])
          | .ok _ =>
            let inst2 := { inst with status := "online" }
            (.ok inst2,
              [.getUserPlan, .registerWebInstance req, .sshExec args cmd,
                .updateWebInstance inst2])
  else (.error notLoggedInMsg, [])

/-- `server show <ref>` (server command file), reduced to its effectful
skeleton: require login, then resolve the reference. -/
def serverShowCmd (c : Config) (gw : Gateway) (ref : String) :
    Except String Server × List Call :=
  if IsLoggedIn c then findServerByNameOrID gw ref
  else (.error notLoggedInMsg, [])

/-- `web list` (web.go), reduced to its effectful skeleton: require login,
then list the web instances. -/
def webListCmd (c : Config) (gw : Gateway) :
    Except String (List WebInstance) × List Call :=
  if IsLoggedIn c then
    match gw.listWebInstancesResp with
    | .error e => (.error ("failed to list web instances: " ++ e), [.listWebInstances])
    | .ok l => (.ok l, [.listWebInstances])
  else (.error notLoggedInMsg, [])

/-- `logout` (auth.go): when not logged in, print a notice and return nil
without touching the config; otherwise clear token/username/expiry and save.
`saveResult` is the outcome of `SaveConfig`. Returns the command result,
the in-memory config afterwards, and the trace of external effects. -/
def logoutCmd (c : Config) (saveResult : Except String Unit) :
    Except String Unit × Config × List Call :=
  if IsLoggedIn c then
    let c2 : Config := { c with token := "", username := "", expiresAt := 0 }
    match saveResult with
    | .error e => (.error ("failed to save config: " ++ e), c2, [.saveConfig])
    | .ok _ => (.ok (), c2, [.saveConfig])
  else (.ok (), c, [])

/-- `runLogin` (auth.go), after the interactive prompt has produced the
candidate token `tokenArg`: verify it against the cloud, reject invalid
tokens, then persist token, username from the verify response, and an
expiry of now plus 7 days (in Unix seconds). `now` is the Unix time at
which the command runs; `saveResult` is the outcome of `SaveConfig`. -/
def runLogin (c : Config) (tokenArg : String) (verify : Except String VerifyResponse)
    (now : Int) (saveResult : Except String Unit) :
    Except String Unit × Config × List Call :=
  if tokenArg = "" then (.error "token is required", c, [])
  else
    match verify with
    | .error e => (.error ("authentication failed: " ++ e), c, [.verifyToken])
    | .ok resp =>
      if resp.valid = false then (.error "invalid token", c, [.verifyToken])
      else
        let c2 : Config :=
          { c with token := tokenArg, username := resp.username
                   expiresAt := now + 7 * 24 * 60 * 60 }
        match saveResult with
        | .error e => (.error ("failed to save config: " ++ e), c2, [.verifyToken, .saveConfig])
        | .ok _ => (.ok (), c2, [.verifyToken, .saveConfig])

/-- `true` for the calls that register a web instance; used to count
registration requests in a trace. -/
def isRegisterCall : Call → Bool
  | .registerWebInstance _ => true
  | _ => false

/-- `true` for the calls that delete a server; used to state that the agent
workflow never rolls back a created server. -/
def isDeleteServerCall : Call → Bool
  | .deleteServer _ => true
  | _ => false

/-- `true` for the calls that remove a web instance. -/
def isRemoveWebCall : Call → Bool
  | .removeWebInstance _ => true
  | _ => false

/-- `true` for the list-servers call; used to state that the fast path of
resolution issues no listing call. -/
def isListServersCall : Call → Bool
  | .listServers => true
  | _ => false

/-- Spec-side restatement of the URL rule when a custom domain is set
(spec §4.2 step 4): omit the port only when it equals the scheme's default
port, 443 with SSL and 80 without. Stated for comparison with
`buildWebURL`. -/
def specDomainURL (domain : String) (port : Int) (ssl : Bool) : String :=
  let scheme := if ssl then "https" else "http"
  if (ssl ∧ port = 443) ∨ (¬ssl ∧ port = 80) then scheme ++ "://" ++ domain
  else scheme ++ "://" ++ domain ++ ":" ++ toString port

/-- Spec-side restatement of the URL rule without a custom domain: omit the
port exactly when it is 80 or 443. Stated for comparison with
`buildWebURL`. -/
def specHostURL (host : String) (port : Int) (ssl : Bool) : String :=
  let scheme := if ssl then "https" else "http"
  if port = 80 ∨ port = 443 then scheme ++ "://" ++ host
  else scheme ++ "://" ++ host ++ ":" ++ toString port

/-! ### Concrete sample data (used by the witnesses) -/

/-- A sample server known to the fake gateway by ID `id1`. -/
def srvA : Server := ⟨"id1", "alpha", "k1", "online"⟩

/-- A sample server only findable by its name `beta`. -/
def srvB : Server := ⟨"id2", "beta", "k2", "offline"⟩

/-- A fake gateway: one fetchable ID, a two-server listing, successful
creates and registrations, a failing remove (to exercise best-effort
cleanup), and a one-instance free plan with no instance yet. -/
def gwA : Gateway where
  getServerResp := fun i => if i = "id1" then .ok srvA else .error "404"
  listServersResp := .ok [srvA, srvB]
  createServerResp := fun n => .ok ⟨"new1", n, "nk", "pending"⟩
  getUserPlanResp := .ok ⟨"free", 1, 0, false⟩
  listWebInstancesResp := .ok []
  registerWebInstanceResp := fun w => .ok { w with id := "w1" }
  removeWebInstanceResp := fun _ => .error "cleanup boom"
  updateWebInstanceResp := fun _ => .ok ()

/-- A logged-in sample config. -/
def cfgA : Config := ⟨"https://cloud.example", "tok", "alice", 0⟩

/-- A sample config with no session token. -/
def cfgEmpty : Config := ⟨"https://cloud.example", "", "", 0⟩

/-! ### Helper lemmas -/

lemma isLoggedIn_of_ne {c : Config} (h : c.token ≠ "") : IsLoggedIn c = true := by
  simp [IsLoggedIn, h]

lemma not_isLoggedIn_of_eq {c : Config} (h : c.token = "") : IsLoggedIn c = false := by
  simp [IsLoggedIn, h]

lemma find?_first (ref : String) (l1 l2 : List Server) (s : Server)
    (h1 : ∀ x ∈ l1, x.name ≠ ref) (hs : s.name = ref) :
    (l1 ++ s :: l2).find? (fun x => x.name == ref) = some s := by
  induction l1 with
  | nil => simp [hs]
  | cons a tl ih =>
    have ha : (a.name == ref) = false := by
      simpa using h1 a (List.mem_cons_self a tl)
    simp only [List.cons_append, List.find?, ha]
    exact ih fun x hx => h1 x (List.mem_cons_of_mem a hx)

/-! ### Claim theorems -/

/-- C1: `findServerByNameOrID` first attempts the direct fetch-by-ID; when it
succeeds, the server is returned and the trace contains no list call. When
the direct fetch fails, the full listing is fetched and the first server
whose name equals the reference exactly is returned. -/
theorem findServer_two_stage (gw : Gateway) (ref : String) :
    (∀ s, gw.getServerResp ref = .ok s →
      findServerByNameOrID gw ref = (.ok s, [.getServer ref]) ∧
      (findServerByNameOrID gw ref).2.filter isListServersCall = []) ∧
    (∀ e l1 s l2, gw.getServerResp ref = .error e →
      gw.listServersResp = .ok (l1 ++ s :: l2) →
      (∀ x ∈ l1, x.name ≠ ref) → s.name = ref →
      findServerByNameOrID gw ref = (.ok s, [.getServer ref, .listServers])) := by
  constructor
  · intro s hs
    refine ⟨?_, ?_⟩ <;> simp [findServerByNameOrID, hs, isListServersCall]
  · intro e l1 s l2 hget hlist hl1 hs
    simp [findServerByNameOrID, hget, hlist, find?_first ref l1 l2 s hl1 hs]

/-- C1 witness: against a concrete gateway, the resolution takes the fast
path on an ID hit and falls back to the name scan otherwise. -/
theorem findServer_two_stage_witness :
    findServerByNameOrID gwA "id1" = (.ok srvA, [.getServer "id1"]) ∧
    findServerByNameOrID gwA "beta" = (.ok srvB, [.getServer "beta", .listServers]) :=
  ⟨((findServer_two_stage gwA "id1").1 srvA rfl).1,
    (findServer_two_stage gwA "beta").2 "404" [srvA] srvB [] rfl rfl (by decide) rfl⟩

/-- C6: when the reference matches no server by ID or by name — including
when the fallback listing itself fails — resolution fails with a message
that is exactly `server not found: <ref>`: it contains the reference
verbatim and is independent of both internal fetch errors. -/
theorem findServer_not_found (gw : Gateway) (ref e : String)
    (hget : gw.getServerResp ref = .error e)
    (hlist : (∃ e2, gw.listServersResp = .error e2) ∨
      (∃ l, gw.listServersResp = .ok l ∧ ∀ x ∈ l, x.name ≠ ref)) :
    (findServerByNameOrID gw ref).1 = .error ("server not found: " ++ ref) ∧
    ∃ pre post, "server not found: " ++ ref = pre ++ ref ++ post := by
  refine ⟨?_, "server not found: ", "", (String.append_empty _).symm⟩
  rcases hlist with ⟨e2, h2⟩ | ⟨l, h2, hall⟩
  · simp [findServerByNameOrID, hget, h2]
  · have hnone : l.find? (fun x => x.name == ref) = none := by
      simp only [List.find?_eq_none, beq_iff_eq]
      exact hall
    simp [findServerByNameOrID, hget, h2, hnone]

/-- C6 witness: a concrete reference matching neither an ID nor any name
yields the verbatim not-found message. -/
theorem findServer_not_found_witness :
    (findServerByNameOrID gwA "nope").1 = .error "server not found: nope" := by
  have h := findServer_not_found gwA "nope" "404" rfl
    (Or.inr ⟨[srvA, srvB], rfl, by decide⟩)
  exact h.1

/-- C4: `buildWebURL` satisfies the four spec equations; in general, with a
custom domain the port is omitted exactly when it equals the scheme's
default port (443 with SSL, 80 without), and with no domain exactly when it
is 80 or 443 — as restated by `specDomainURL` and `specHostURL`. -/
theorem buildWebURL_spec (h d : String) (p : Int) (ssl : Bool) :
    buildWebURL "h" 443 "" true = "https://h" ∧
    buildWebURL "h" 8080 "" true = "https://h:8080" ∧
    buildWebURL "h" 80 "d.example.com" false = "http://d.example.com" ∧
    buildWebURL "h" 3001 "d.example.com" true = "https://d.example.com:3001" ∧
    (d ≠ "" → buildWebURL h p d ssl = specDomainURL d p ssl) ∧
    buildWebURL h p "" ssl = specHostURL h p ssl := by
  refine ⟨by decide, by decide, by decide, by decide, ?_, ?_⟩
  · intro hd
    cases ssl <;>
      by_cases h443 : p = 443 <;>
        by_cases h80 : p = 80 <;>
          simp_all [buildWebURL, specDomainURL]
  · simp [buildWebURL, specHostURL]

/-- C4 witness: the general domain clause instantiated at a non-default
port. -/
theorem buildWebURL_spec_witness :
    buildWebURL "x" 5 "q" false = specDomainURL "q" 5 false ∧
    specDomainURL "q" 5 false = "http://q:5" :=
  ⟨(buildWebURL_spec "x" "q" 5 false).2.2.2.2.1 (by decide), by decide⟩

/-- C7: with an empty session token, every modelled authenticated workflow —
`ssh agent`, `ssh web`, `server show`, `web list` — fails with the
distinguished not-logged-in error and issues no external call at all, as
does the shared `requireLogin` guard. -/
theorem auth_gate (c : Config) (gw : Gateway) (ssh : Except String Unit)
    (hostArg nameFlag serverFlag userFlag : String) (portFlag : Int) (keyFlag : String)
    (webPortFlag : Int) (domainFlag : String) (sslFlag : Bool) (ref : String)
    (hc : c.token = "") :
    sshAgentCmd c gw ssh hostArg nameFlag serverFlag userFlag portFlag keyFlag
      = (.error notLoggedInMsg, []) ∧
    sshWebCmd c gw ssh hostArg nameFlag webPortFlag domainFlag sslFlag userFlag portFlag keyFlag
      = (.error notLoggedInMsg, []) ∧
    serverShowCmd c gw ref = (.error notLoggedInMsg, []) ∧
    webListCmd c gw = (.error notLoggedInMsg, []) ∧
    requireLogin c = .error notLoggedInMsg := by
  have hlog := not_isLoggedIn_of_eq hc
  refine ⟨?_, ?_, ?_, ?_, ?_⟩ <;>
    simp [sshAgentCmd, sshWebCmd, serverShowCmd, webListCmd, requireLogin, hlog]

/-- C7 witness: the gate fires on a concrete token-less config. -/
theorem auth_gate_witness :
    serverShowCmd cfgEmpty gwA "id1" = (.error notLoggedInMsg, []) :=
  (auth_gate cfgEmpty gwA (.ok ()) "h" "" "" "" 0 "" 0 "" false "id1" rfl).2.2.1

/-- C3: when the plan fetch succeeds with a non-pro plan whose current count
has reached the maximum, `ssh web` fails with the quota error right after
the plan call: the trace is exactly `[getUserPlan]`, so zero registration
calls are issued and no partial state is created. -/
theorem quota_preflight (c : Config) (gw : Gateway) (ssh : Except String Unit)
    (hostArg nameFlag : String) (webPortFlag : Int) (domainFlag : String) (sslFlag : Bool)
    (userFlag : String) (portFlag : Int) (keyFlag : String) (plan : UserPlan)
    (hlog : c.token ≠ "")
    (hplan : gw.getUserPlanResp = .ok plan)
    (hpro : plan.isPro = false)
    (hq : plan.currentCount ≥ plan.maxWebApps) :
    sshWebCmd c gw ssh hostArg nameFlag webPortFlag domainFlag sslFlag userFlag portFlag keyFlag
      = (.error "web instance limit reached", [.getUserPlan]) ∧
    (sshWebCmd c gw ssh hostArg nameFlag webPortFlag domainFlag sslFlag userFlag portFlag
        keyFlag).2.filter isRegisterCall = [] := by
  have hlog' := isLoggedIn_of_ne hlog
  have hmain : sshWebCmd c gw ssh hostArg nameFlag webPortFlag domainFlag sslFlag userFlag
      portFlag keyFlag = (.error "web instance limit reached", [.getUserPlan]) := by
    simp [sshWebCmd, hlog', hplan, hpro, hq]
  exact ⟨hmain, by simp [hmain, isRegisterCall]⟩

/-- C3 witness: a full free plan (1 of 1 used) blocks `ssh web` with zero
registration calls. -/
theorem quota_preflight_witness :
    sshWebCmd cfgA { gwA with getUserPlanResp := .ok ⟨"free", 1, 1, false⟩ } (.ok ())
      "root@host" "" 0 "" false "" 0 ""
      = (.error "web instance limit reached", [.getUserPlan]) :=
  (quota_preflight cfgA _ (.ok ()) "root@host" "" 0 "" false "" 0 ""
    ⟨"free", 1, 1, false⟩ (by decide) rfl rfl (by decide)).1

/-- C9: for a non-pro plan with a negative `max_web_apps` (the documented
unlimited sentinel) and a non-negative current count, the pre-flight
condition `current_count ≥ max_web_apps` always holds, so `ssh web` always
fails with the quota error and issues no registration; the sentinel is
honored only by `formatLimit`, which renders it as `unlimited`. -/
theorem quota_negative_sentinel (c : Config) (gw : Gateway) (ssh : Except String Unit)
    (hostArg nameFlag : String) (webPortFlag : Int) (domainFlag : String) (sslFlag : Bool)
    (userFlag : String) (portFlag : Int) (keyFlag : String) (plan : UserPlan)
    (hlog : c.token ≠ "")
    (hplan : gw.getUserPlanResp = .ok plan)
    (hpro : plan.isPro = false)
    (hneg : plan.maxWebApps < 0)
    (hcnt : 0 ≤ plan.currentCount) :
    sshWebCmd c gw ssh hostArg nameFlag webPortFlag domainFlag sslFlag userFlag portFlag keyFlag
      = (.error "web instance limit reached", [.getUserPlan]) ∧
    (sshWebCmd c gw ssh hostArg nameFlag webPortFlag domainFlag sslFlag userFlag portFlag
        keyFlag).2.filter isRegisterCall = [] ∧
    formatLimit plan.maxWebApps = "unlimited" := by
  have hq : plan.currentCount ≥ plan.maxWebApps := le_trans hneg.le hcnt
  have hlog' := isLoggedIn_of_ne hlog
  have hmain : sshWebCmd c gw ssh hostArg nameFlag webPortFlag domainFlag sslFlag userFlag
      portFlag keyFlag = (.error "web instance limit reached", [.getUserPlan]) := by
    simp [sshWebCmd, hlog', hplan, hpro, hq]
  exact ⟨hmain, by simp [hmain, isRegisterCall], by simp [formatLimit, hneg]⟩

/-- C9 witness: a non-pro plan with `max_web_apps = -1` and no instance yet
is still blocked, while `formatLimit` displays it as unlimited. -/
theorem quota_negative_sentinel_witness :
    sshWebCmd cfgA { gwA with getUserPlanResp := .ok ⟨"free", -1, 0, false⟩ } (.ok ())
      "root@host" "" 0 "" false "" 0 ""
      = (.error "web instance limit reached", [.getUserPlan]) ∧
    formatLimit (-1) = "unlimited" := by
  have h := quota_negative_sentinel cfgA
    { gwA with getUserPlanResp := .ok ⟨"free", -1, 0, false⟩ } (.ok ())
    "root@host" "" 0 "" false "" 0 "" ⟨"free", -1, 0, false⟩
    (by decide) rfl rfl (by decide) (by decide)
  exact ⟨h.1, h.2.2⟩

/-- C2: in the web workflow, when the registration has succeeded and the SSH
subprocess then fails, exactly one remove call is issued — for the
registered instance's id — the surfaced error is the deployment error
wrapping the SSH failure, and the outcome is entirely independent of the
remove call's own response (its error is ignored and never masks the
deployment error). -/
theorem web_compensation (c : Config) (gw : Gateway) (e : String)
    (hostArg nameFlag : String) (webPortFlag : Int) (domainFlag : String) (sslFlag : Bool)
    (userFlag : String) (portFlag : Int) (keyFlag : String) (plan : UserPlan)
    (inst : WebInstance)
    (hlog : c.token ≠ "")
    (hplan : gw.getUserPlanResp = .ok plan)
    (hquota : ¬ (plan.isPro = false ∧ plan.currentCount ≥ plan.maxWebApps))
    (hreg : gw.registerWebInstanceResp
      (webReqOf hostArg nameFlag webPortFlag domainFlag sslFlag) = .ok inst) :
    (sshWebCmd c gw (.error e) hostArg nameFlag webPortFlag domainFlag sslFlag userFlag
        portFlag keyFlag).1 = .error ("deployment failed: " ++ e) ∧
    (sshWebCmd c gw (.error e) hostArg nameFlag webPortFlag domainFlag sslFlag userFlag
        portFlag keyFlag).2.filter isRemoveWebCall = [.removeWebInstance inst.id] ∧
    (∀ rr, sshWebCmd c { gw with removeWebInstanceResp := rr } (.error e) hostArg nameFlag
        webPortFlag domainFlag sslFlag userFlag portFlag keyFlag
      = sshWebCmd c gw (.error e) hostArg nameFlag webPortFlag domainFlag sslFlag userFlag
        portFlag keyFlag) := by
  have hlog' := isLoggedIn_of_ne hlog
  have hmain : ∀ rr, sshWebCmd c { gw with removeWebInstanceResp := rr } (.error e) hostArg
      nameFlag webPortFlag domainFlag sslFlag userFlag portFlag keyFlag
      = (.error ("deployment failed: " ++ e),
          [.getUserPlan,
            .registerWebInstance (webReqOf hostArg nameFlag webPortFlag domainFlag sslFlag),
            .sshExec
              (buildSSHArgs portFlag keyFlag
                (resolveUser (parseSSHHost hostArg).1 userFlag) (parseSSHHost hostArg).2)
              (webInstallCmd (effectiveCloudURL c) c.token
                (webReqOf hostArg nameFlag webPortFlag domainFlag sslFlag).port
                sslFlag domainFlag),
            .removeWebInstance inst.id]) := by
    intro rr
    simp [sshWebCmd, hlog', hplan, hquota, hreg]
  have hgw : sshWebCmd c gw (.error e) hostArg nameFlag webPortFlag domainFlag sslFlag
      userFlag portFlag keyFlag
      = sshWebCmd c { gw with removeWebInstanceResp := gw.removeWebInstanceResp } (.error e)
        hostArg nameFlag webPortFlag domainFlag sslFlag userFlag portFlag keyFlag := rfl
  refine ⟨?_, ?_, ?_⟩
  · rw [hgw, hmain gw.removeWebInstanceResp]
  · rw [hgw, hmain gw.removeWebInstanceResp]
    simp [isRemoveWebCall]
  · intro rr
    rw [hmain rr, hgw, hmain gw.removeWebInstanceResp]

/-- C2 witness: with a concrete gateway whose remove call itself fails, a
failed deployment still surfaces the deployment error and issues exactly
one remove for the registered id. -/
theorem web_compensation_witness :
    (sshWebCmd cfgA gwA (.error "ssh exited 1") "root@host" "" 0 "" false "" 0 "").1
      = .error "deployment failed: ssh exited 1" ∧
    (sshWebCmd cfgA gwA (.error "ssh exited 1") "root@host" "" 0 "" false "" 0 "").2.filter
        isRemoveWebCall
      = [.removeWebInstance "w1"] := by
  have h := web_compensation cfgA gwA "ssh exited 1" "root@host" "" 0 "" false "" 0 ""
    ⟨"free", 1, 0, false⟩ { webReqOf "root@host" "" 0 "" false with id := "w1" }
    (by decide) rfl (by decide) rfl
  exact ⟨h.1, h.2.1⟩

/-- C5: in the agent workflow on the create path, when the server creation
has succeeded and the SSH subprocess then fails, the command surfaces a
deployment error wrapping the underlying cause and its trace contains no
delete (and no web-instance remove) call: the created server is not rolled
back, in contrast to the web-instance path. -/
theorem agent_no_rollback (c : Config) (gw : Gateway) (e : String)
    (hostArg nameFlag userFlag : String) (portFlag : Int) (keyFlag : String) (srv : Server)
    (hlog : c.token ≠ "")
    (hcreate : gw.createServerResp
      (if nameFlag = "" then (parseSSHHost hostArg).2 else nameFlag) = .ok srv) :
    (sshAgentCmd c gw (.error e) hostArg nameFlag "" userFlag portFlag keyFlag).1
      = .error ("deployment failed: " ++ e) ∧
    (sshAgentCmd c gw (.error e) hostArg nameFlag "" userFlag portFlag keyFlag).2.filter
      isDeleteServerCall = [] ∧
    (sshAgentCmd c gw (.error e) hostArg nameFlag "" userFlag portFlag keyFlag).2.filter
      isRemoveWebCall = [] := by
  have hlog' := isLoggedIn_of_ne hlog
  have hmain : sshAgentCmd c gw (.error e) hostArg nameFlag "" userFlag portFlag keyFlag
      = (.error ("deployment failed: " ++ e),
          [.createServer (if nameFlag = "" then (parseSSHHost hostArg).2 else nameFlag),
            .sshExec
              (buildSSHArgs portFlag keyFlag
                (resolveUser (parseSSHHost hostArg).1 userFlag) (parseSSHHost hostArg).2)
              (agentInstallCmd (effectiveCloudURL c) c.token
                (if nameFlag = "" then (parseSSHHost hostArg).2 else nameFlag))]) := by
    simp [sshAgentCmd, hlog', hcreate]
  refine ⟨?_, ?_, ?_⟩ <;> simp [hmain, isDeleteServerCall, isRemoveWebCall]

/-- C5 witness: a concrete failed agent deployment after a successful create
keeps the server (no delete call) and reports the deployment error. -/
theorem agent_no_rollback_witness :
    (sshAgentCmd cfgA gwA (.error "ssh exited 1") "root@host" "" "" "" 0 "").1
      = .error "deployment failed: ssh exited 1" ∧
    (sshAgentCmd cfgA gwA (.error "ssh exited 1") "root@host" "" "" "" 0 "").2.filter
      isDeleteServerCall = [] := by
  have h := agent_no_rollback cfgA gwA "ssh exited 1" "root@host" "" "" 0 ""
    ⟨"new1", "host", "nk", "pending"⟩ (by decide) rfl
  exact ⟨h.1, h.2.1⟩

/-- C8: `logout` with no session (empty token) returns without error,
performs no config write and leaves the configuration unchanged; running it
again from the resulting state does exactly the same, so it is idempotent. -/
theorem logout_idempotent (c : Config) (save save2 : Except String Unit)
    (hc : c.token = "") :
    logoutCmd c save = (.ok (), c, []) ∧
    logoutCmd (logoutCmd c save).2.1 save2 = (.ok (), c, []) := by
  have hlog := not_isLoggedIn_of_eq hc
  have h1 : logoutCmd c save = (.ok (), c, []) := by simp [logoutCmd, hlog]
  exact ⟨h1, by simp [h1, logoutCmd, hlog]⟩

/-- C8 witness: logging out of a concrete token-less config is a no-op. -/
theorem logout_idempotent_witness :
    logoutCmd cfgEmpty (.ok ()) = (.ok (), cfgEmpty, []) :=
  (logout_idempotent cfgEmpty (.ok ()) (.ok ()) rfl).1

/-- C10: a successful login persists an expiry of the current Unix time plus
exactly 7 days (604800 seconds), computed locally; of the verify response
only the username is persisted — any verify response with the same username
(and valid flag) yields the identical result. -/
theorem login_expiry (c : Config) (tok : String) (resp : VerifyResponse) (now : Int)
    (ht : tok ≠ "") (hv : resp.valid = true) :
    runLogin c tok (.ok resp) now (.ok ())
      = (.ok (),
          { c with token := tok, username := resp.username,
                   expiresAt := now + 7 * 24 * 60 * 60 },
          [.verifyToken, .saveConfig]) ∧
    (∀ resp2 : VerifyResponse, resp2.valid = true → resp2.username = resp.username →
      runLogin c tok (.ok resp2) now (.ok ()) = runLogin c tok (.ok resp) now (.ok ())) := by
  constructor
  · simp [runLogin, ht, hv]
  · intro resp2 hv2 hu
    simp [runLogin, ht, hv, hv2, hu]

/-- C10 witness: a concrete login at Unix time 1000 persists expiry 605800,
whatever else the verify response says. -/
theorem login_expiry_witness :
    runLogin cfgEmpty "tok" (.ok ⟨true, "uid9", "alice", "pro"⟩) 1000 (.ok ())
      = (.ok (),
          { cfgEmpty with token := "tok", username := "alice", expiresAt := 605800 },
          [.verifyToken, .saveConfig]) := by
  have h := (login_expiry cfgEmpty "tok" ⟨true, "uid9", "alice", "pro"⟩ 1000
    (by decide) rfl).1
  simpa using h

end VStats
